import Mathlib

/-!
Shallow embedding of the `llm-infer-stress` benchmark core
(`src/llm_infer/core/cost_tracker.py`, `src/llm_infer/core/prompt_generator.py`,
`src/llm_infer/core/stress_test_runner.py`) and proofs of the spec claims.

Conventions of the embedding:
* Python `float` is modelled by `ℚ` (all arithmetic in the sources is
  exact field arithmetic on the inputs; no rounding is relied upon).
* Python `int` is `ℤ` where subtraction occurs, `ℕ` for counts.
* Python `dict` is an association list; `dict.get(k, d)` is `lookup` + `getD`.
* fallible code returns `Except String`; wall-clock timestamps are threaded
  as opaque `String` parameters.
* Python's `%.2f` / `f"{x}"` numeric rendering inside messages is abstracted
  by `toString : ℚ → String`; the surrounding literal text is kept verbatim.
-/

namespace LlmInfer

/-! ## Cost tracker (`cost_tracker.py`) -/

/-- `CostTier` enum: cost tiers for different testing scenarios. -/
inductive CostTier where
  | DEVELOPMENT
  | DEMO
  | PRODUCTION
deriving DecidableEq, Repr

/-- `CostTier.value` as used for the `tier` field of the budget status. -/
def CostTier.value : CostTier → String
  | .DEVELOPMENT => "development"
  | .DEMO => "demo"
  | .PRODUCTION => "production"

/-- `TokenCost` dataclass: token pricing structure for a model. -/
structure TokenCost where
  input_cost_per_1k : ℚ
  output_cost_per_1k : ℚ
  currency : String := "USD"
deriving DecidableEq, Repr

/-- `TestCost` dataclass: cost breakdown for a single test. -/
structure TestCost where
  model : String
  input_tokens : ℤ
  output_tokens : ℤ
  input_cost : ℚ
  output_cost : ℚ
  total_cost : ℚ
  timestamp : String
  test_id : Option String := none
deriving DecidableEq, Repr

/-- `BudgetConfig` dataclass: budget configuration for cost-aware testing. -/
structure BudgetConfig where
  daily_limit : ℚ
  test_limit : ℚ
  warning_threshold : ℚ
  tier : CostTier
  auto_stop : Bool := true
deriving DecidableEq, Repr

/-- `CostTracker.MODEL_PRICING`: pricing table (per 1K tokens), as an
association list in source order. -/
def MODEL_PRICING : List (String × TokenCost) :=
  [("gpt-3.5-turbo", { input_cost_per_1k := 0.0015, output_cost_per_1k := 0.002 }),
   ("gpt-3.5-turbo-1106", { input_cost_per_1k := 0.001, output_cost_per_1k := 0.002 }),
   ("gpt-4", { input_cost_per_1k := 0.03, output_cost_per_1k := 0.06 }),
   ("gpt-4-turbo", { input_cost_per_1k := 0.01, output_cost_per_1k := 0.03 }),
   ("gpt-4-turbo-preview", { input_cost_per_1k := 0.01, output_cost_per_1k := 0.03 }),
   ("gpt-4o", { input_cost_per_1k := 0.005, output_cost_per_1k := 0.015 }),
   ("gpt-4o-mini", { input_cost_per_1k := 0.00015, output_cost_per_1k := 0.0006 }),
   ("claude-3-haiku", { input_cost_per_1k := 0.00025, output_cost_per_1k := 0.00125 }),
   ("claude-3-sonnet", { input_cost_per_1k := 0.003, output_cost_per_1k := 0.015 }),
   ("claude-3-opus", { input_cost_per_1k := 0.015, output_cost_per_1k := 0.075 }),
   ("claude-3-5-sonnet", { input_cost_per_1k := 0.003, output_cost_per_1k := 0.015 }),
   ("gemini-pro", { input_cost_per_1k := 0.0005, output_cost_per_1k := 0.0015 }),
   ("gemini-pro-vision", { input_cost_per_1k := 0.0005, output_cost_per_1k := 0.0015 }),
   ("gemini-1.5-pro", { input_cost_per_1k := 0.007, output_cost_per_1k := 0.021 }),
   ("gemini-1.5-flash", { input_cost_per_1k := 0.00035, output_cost_per_1k := 0.00105 }),
   ("mock-gpt-3.5", { input_cost_per_1k := 0.0, output_cost_per_1k := 0.0 }),
   ("mock-gpt-4", { input_cost_per_1k := 0.0, output_cost_per_1k := 0.0 }),
   ("local-model", { input_cost_per_1k := 0.0, output_cost_per_1k := 0.0 }),
   ("ollama", { input_cost_per_1k := 0.0, output_cost_per_1k := 0.0 })]

/-- The table's own `"gpt-3.5-turbo"` entry, used as the fallback for
unknown model names (`MODEL_PRICING.get(model, MODEL_PRICING["gpt-3.5-turbo"])`). -/
def gpt_3_5_turbo_pricing : TokenCost :=
  { input_cost_per_1k := 0.0015, output_cost_per_1k := 0.002 }

/-- `self.MODEL_PRICING.get(model, self.MODEL_PRICING["gpt-3.5-turbo"])`. -/
def lookupModelPricing (model : String) : TokenCost :=
  (MODEL_PRICING.lookup model).getD gpt_3_5_turbo_pricing

/-- `CostTracker.BUDGET_TIERS`: predefined budget configurations. -/
def BUDGET_TIERS : CostTier → BudgetConfig
  | .DEVELOPMENT =>
    { daily_limit := 5.0, test_limit := 1.0, warning_threshold := 0.8,
      tier := .DEVELOPMENT, auto_stop := true }
  | .DEMO =>
    { daily_limit := 25.0, test_limit := 10.0, warning_threshold := 0.75,
      tier := .DEMO, auto_stop := false }
  | .PRODUCTION =>
    { daily_limit := 100.0, test_limit := 50.0, warning_threshold := 0.9,
      tier := .PRODUCTION, auto_stop := false }

/-- Mutable state of a `CostTracker` instance. -/
structure CostTracker where
  budget_config : BudgetConfig
  costs_history : List TestCost := []
  daily_costs : List (String × ℚ) := []
  current_test_cost : ℚ := 0
deriving Repr

/-- `CostTracker.__init__(budget_tier)` with an empty loaded history
(loading persisted history is best-effort file IO, out of the model). -/
def CostTracker.init (budget_tier : CostTier) : CostTracker :=
  { budget_config := BUDGET_TIERS budget_tier }

/-- `CostTracker.calculate_request_cost(model, input_tokens, output_tokens)`;
`now` stands for `datetime.now().isoformat()`. -/
def calculate_request_cost (model : String) (input_tokens output_tokens : ℤ)
    (now : String) : TestCost :=
  let pricing := lookupModelPricing model
  let input_cost := ((input_tokens : ℚ) / 1000) * pricing.input_cost_per_1k
  let output_cost := ((output_tokens : ℚ) / 1000) * pricing.output_cost_per_1k
  let total_cost := input_cost + output_cost
  { model := model, input_tokens := input_tokens, output_tokens := output_tokens,
    input_cost := input_cost, output_cost := output_cost, total_cost := total_cost,
    timestamp := now }

/-- `CostTracker.get_daily_cost(date)` (dict lookup with default `0.0`). -/
def CostTracker.get_daily_cost (t : CostTracker) (date : String) : ℚ :=
  (t.daily_costs.lookup date).getD 0

/-- `CostTracker.estimate_test_cost(model, num_requests, avg_in, avg_out)`. -/
def estimate_test_cost (model : String) (num_requests : ℕ)
    (avg_input_tokens avg_output_tokens : ℤ) : ℚ :=
  (calculate_request_cost model avg_input_tokens avg_output_tokens "").total_cost
    * (num_requests : ℚ)

/-- `CostTracker.can_afford_test(model, num_requests, avg_in, avg_out)`;
`today` stands for `datetime.now().strftime("%Y-%m-%d")`. -/
def can_afford_test (t : CostTracker) (today : String) (model : String)
    (num_requests : ℕ) (avg_input_tokens avg_output_tokens : ℤ) : Bool × String :=
  let estimated_cost := estimate_test_cost model num_requests
    avg_input_tokens avg_output_tokens
  if t.budget_config.test_limit < estimated_cost then
    (false, "Test cost $" ++ toString estimated_cost ++ " exceeds test limit $"
      ++ toString t.budget_config.test_limit)
  else
    let today_cost := t.get_daily_cost today
    if t.budget_config.daily_limit < today_cost + estimated_cost then
      (false, "Test would exceed daily limit. $"
        ++ toString (t.budget_config.daily_limit - today_cost)
        ++ " remaining today")
    else
      (true, "Test within budget")

/-- Python dict update `d[k] = v`: replace in place if the key exists,
else append at the end (insertion order is preserved). -/
def setAssoc (l : List (String × ℚ)) (k : String) (v : ℚ) : List (String × ℚ) :=
  if l.lookup k = none then l ++ [(k, v)]
  else l.map (fun p => if p.1 = k then (k, v) else p)

/-- `CostTracker.record_test_cost(test_cost, test_id)`; budget warnings are
logging only and carry no state. -/
def CostTracker.record_test_cost (t : CostTracker) (test_cost : TestCost)
    (test_id : Option String) (today : String) : CostTracker :=
  let c := { test_cost with test_id := test_id }
  { t with
    costs_history := t.costs_history ++ [c],
    current_test_cost := t.current_test_cost + c.total_cost,
    daily_costs := setAssoc t.daily_costs today (t.get_daily_cost today + c.total_cost) }

/-- `CostTracker.start_test()`. -/
def CostTracker.start_test (t : CostTracker) : CostTracker :=
  { t with current_test_cost := 0 }

/-- The dictionary returned by `CostTracker._get_budget_status()`. -/
structure BudgetStatus where
  daily_used : ℚ
  daily_limit : ℚ
  daily_remaining : ℚ
  daily_percentage : ℚ
  test_used : ℚ
  test_limit : ℚ
  test_remaining : ℚ
  test_percentage : ℚ
  tier : String
deriving DecidableEq, Repr

/-- `CostTracker._get_budget_status()`. -/
def CostTracker.get_budget_status (t : CostTracker) (today : String) : BudgetStatus :=
  let today_cost := t.get_daily_cost today
  { daily_used := today_cost,
    daily_limit := t.budget_config.daily_limit,
    daily_remaining := max 0 (t.budget_config.daily_limit - today_cost),
    daily_percentage := min 100 ((today_cost / t.budget_config.daily_limit) * 100),
    test_used := t.current_test_cost,
    test_limit := t.budget_config.test_limit,
    test_remaining := max 0 (t.budget_config.test_limit - t.current_test_cost),
    test_percentage :=
      min 100 ((t.current_test_cost / t.budget_config.test_limit) * 100),
    tier := t.budget_config.tier.value }

/-- Per-model accumulator entry of `get_cost_summary`'s `model_breakdown`. -/
structure ModelCostStats where
  cost : ℚ
  requests : ℕ
deriving DecidableEq, Repr

/-- One step of the `model_breakdown` accumulation loop of
`CostTracker.get_cost_summary`. -/
def addModelCost (acc : List (String × ModelCostStats)) (c : TestCost) :
    List (String × ModelCostStats) :=
  match acc.lookup c.model with
  | none => acc ++ [(c.model, { cost := c.total_cost, requests := 1 })]
  | some s => acc.map (fun p =>
      if p.1 = c.model then (p.1, { cost := s.cost + c.total_cost, requests := s.requests + 1 })
      else p)

/-- The dictionary returned by `CostTracker.get_cost_summary`.
The Python empty-history branch omits the `current_test_cost` key, hence the
`Option`. -/
structure CostSummary where
  total_cost : ℚ
  avg_daily_cost : ℚ
  total_requests : ℕ
  avg_cost_per_request : ℚ
  model_breakdown : List (String × ModelCostStats)
  daily_costs : List (String × ℚ)
  budget_status : BudgetStatus
  current_test_cost : Option ℚ
deriving Repr

/-- `CostTracker.get_cost_summary(days)`. The cutoff comparison
`datetime.fromisoformat(cost.timestamp) >= cutoff_date` is abstracted by the
predicate `inWindow` on the stored timestamp string. -/
def CostTracker.get_cost_summary (t : CostTracker) (inWindow : String → Bool)
    (today : String) (days : ℕ) : CostSummary :=
  let recent_costs := t.costs_history.filter (fun c => inWindow c.timestamp)
  if recent_costs = [] then
    { total_cost := 0, avg_daily_cost := 0, total_requests := 0,
      avg_cost_per_request := 0, model_breakdown := [], daily_costs := [],
      budget_status := t.get_budget_status today, current_test_cost := none }
  else
    let total_cost := (recent_costs.map (fun c => c.total_cost)).sum
    let total_requests := recent_costs.length
    let model_costs := recent_costs.foldl addModelCost []
    { total_cost := total_cost,
      avg_daily_cost := total_cost / (days : ℚ),
      total_requests := total_requests,
      avg_cost_per_request :=
        if 0 < total_requests then total_cost / (total_requests : ℚ) else 0,
      model_breakdown := model_costs,
      daily_costs := t.daily_costs.drop (t.daily_costs.length - days),
      budget_status := t.get_budget_status today,
      current_test_cost := some t.current_test_cost }

/-! ## Prompt generator (`prompt_generator.py`) -/

/-- `PromptType` enum. -/
inductive PromptType where
  | SHORT_QA
  | LONG_FORM
  | CODE_GENERATION
deriving DecidableEq, Repr

/-- `PromptGenerator._short_qa_prompts`. -/
def short_qa_prompts : List String :=
  ["What is the capital of France?",
   "Explain the concept of gravity in one sentence.",
   "What is 15 + 27?",
   "Name three programming languages.",
   "What year was the internet invented?",
   "Define artificial intelligence briefly.",
   "What is the largest planet in our solar system?",
   "How many sides does a hexagon have?",
   "What is the chemical symbol for gold?",
   "Name the four seasons."]

/-- `PromptGenerator._long_form_prompts` (contents abbreviated to their first
clause; only count and distinctness matter to the claims). -/
def long_form_prompts : List String :=
  ["Write a detailed essay about the impact of climate change on global agriculture.",
   "Explain the history and significance of the Renaissance period.",
   "Describe the process of photosynthesis in plants.",
   "Write a comprehensive analysis of the causes and consequences of World War II.",
   "Explain the principles of machine learning.",
   "Describe the evolution of human language.",
   "Write about the economic implications of cryptocurrency and blockchain technology.",
   "Explain the structure and function of the human brain.",
   "Describe the challenges and opportunities of space exploration in the 21st century.",
   "Write about the role of renewable energy."]

/-- `PromptGenerator._code_generation_prompts` (contents abbreviated; only
count and distinctness matter to the claims). -/
def code_generation_prompts : List String :=
  ["Write a Python function that sorts a list of dictionaries by a specified key.",
   "Create a JavaScript function that validates an email address using regular expressions.",
   "Write a Python class to implement a simple stack data structure.",
   "Create a SQL query to find the top 5 customers by total purchase amount.",
   "Write a Python function that calculates the Fibonacci sequence up to n terms.",
   "Create a JavaScript function that debounces user input with a specified delay.",
   "Write a Python script that reads a CSV file and calculates basic statistics.",
   "Create a function in any language that implements binary search on a sorted array.",
   "Write a Python decorator that measures and logs the execution time of functions.",
   "Create a REST API endpoint using Flask that handles user authentication."]

/-- `PromptGenerator._get_prompts_by_type(prompt_type)`. -/
def get_prompts_by_type : PromptType → List String
  | .SHORT_QA => short_qa_prompts
  | .LONG_FORM => long_form_prompts
  | .CODE_GENERATION => code_generation_prompts

/-- `PromptGenerator.get_multiple_prompts(prompt_type, count, allow_duplicates)`.
The random number generator is abstracted: `choice i` is the index drawn by
the `i`-th call of `random.choice` (reduced modulo the pool size), and
`sample pool k` is the list returned by `random.sample(pool, k)`; theorems
assume only the documented contract of `random.sample` (a length-`k`
duplicate-free selection from the pool). -/
def get_multiple_prompts (choice : ℕ → ℕ)
    (sample : List String → ℕ → List String) (prompt_type : PromptType)
    (count : ℕ) (allow_duplicates : Bool) : Except String (List String) :=
  if count = 0 then
    Except.error "Count must be greater than 0"
  else
    let available_prompts := get_prompts_by_type prompt_type
    if allow_duplicates = false ∧ available_prompts.length < count then
      Except.error ("Cannot generate " ++ toString count
        ++ " unique prompts of the requested type. Only "
        ++ toString available_prompts.length ++ " available.")
    else if allow_duplicates then
      Except.ok ((List.range count).map
        (fun i => available_prompts.getD (choice i % available_prompts.length) ""))
    else
      Except.ok (sample available_prompts count)

/-! ## Stress test runner (`stress_test_runner.py`) -/

/-- The result dictionary returned by a client's `run_prompt`. Different
clients populate different keys (the OpenAI client returns `token_count`,
the mock/Ollama/HuggingFace clients return `input_tokens`/`output_tokens`/
`total_tokens`), so each optional key is an `Option`. -/
structure Outcome where
  response : String := ""
  latency : ℚ := 0
  success : Bool := false
  error : Option String := none
  model : String := ""
  token_count : Option ℤ := none
  input_tokens : Option ℤ := none
  output_tokens : Option ℤ := none
  total_tokens : Option ℤ := none
deriving DecidableEq, Repr

/-- A client outcome after the engine added `request_id` and `prompt`. -/
structure RequestResult extends Outcome where
  request_id : ℕ
  prompt : String
deriving DecidableEq, Repr

/-- `StressTestConfig` dataclass. `custom_prompts = []` models Python's
`None` as well (both are falsy in `if config.custom_prompts:`). -/
structure StressTestConfig where
  num_requests : ℕ := 10
  concurrent_requests : ℕ := 1
  prompt_type : PromptType := .SHORT_QA
  custom_prompts : List String := []
  save_results : Bool := true
  output_format : String := "json"
  output_dir : String := "results"
  test_name : Option String := none
  budget_tier : CostTier := .DEVELOPMENT
  max_cost : Option ℚ := none
deriving Repr

/-- `StressTestResults` dataclass (timestamps kept as opaque strings). -/
structure StressTestResults where
  test_name : String
  start_time : String
  end_time : String
  total_duration : ℚ
  total_requests : ℕ
  successful_requests : ℕ
  failed_requests : ℕ
  success_rate : ℚ
  min_latency : ℚ
  max_latency : ℚ
  avg_latency : ℚ
  median_latency : ℚ
  p95_latency : ℚ
  total_tokens : ℤ
  requests_per_second : ℚ
  errors : List (String × ℕ)
  individual_results : List RequestResult
  total_cost : ℚ := 0
  avg_cost_per_request : ℚ := 0
deriving Repr

/-- A client call, `self.client.run_prompt(prompt)`: either an outcome
dictionary or a raised exception carried as its message string. -/
def RunPrompt : Type := String → Except String Outcome

/-- `StressTestRunner._run_sequential_requests`, with the 1-based request
counter made explicit (`i` is the number of already-issued requests). A
raised client exception propagates: the sequential loop has no handler. -/
def run_sequential_from (run_prompt : RunPrompt) :
    List String → ℕ → Except String (List RequestResult)
  | [], _ => Except.ok []
  | p :: ps, i => do
    let o ← run_prompt p
    let rest ← run_sequential_from run_prompt ps (i + 1)
    Except.ok ({ toOutcome := o, request_id := i + 1, prompt := p } :: rest)

/-- `StressTestRunner._run_sequential_requests(prompts)`. -/
def run_sequential_requests (run_prompt : RunPrompt) (prompts : List String) :
    Except String (List RequestResult) :=
  run_sequential_from run_prompt prompts 0

/-- The record appended for request index `i` (0-based) in
`_run_concurrent_requests`: the enriched client outcome on success, or the
synthetic error dictionary built in the `except` branch. `model` is
`self.client.model`. -/
def concurrentEntry (model : String) (run_prompt : RunPrompt)
    (prompts : List String) (i : ℕ) : RequestResult :=
  let p := prompts.getD i ""
  match run_prompt p with
  | Except.ok o => { toOutcome := o, request_id := i + 1, prompt := p }
  | Except.error e =>
    { request_id := i + 1, prompt := p, response := "", latency := 0,
      success := false, error := some e, model := model, token_count := some 0 }

/-- `StressTestRunner._run_concurrent_requests(prompts, max_workers)`.
`order` is the completion order produced by `as_completed` — an arbitrary
permutation of the 0-based request indices; the collected list is then
sorted by `request_id` (`results.sort(key=lambda x: x["request_id"])`,
modelled by stable insertion sort). -/
def run_concurrent_requests (model : String) (run_prompt : RunPrompt)
    (prompts : List String) (order : List ℕ) : List RequestResult :=
  let results := order.map (concurrentEntry model run_prompt prompts)
  results.insertionSort (fun a b => a.request_id ≤ b.request_id)

/-- Python `min` over a non-empty list (`0` is never reached: the metrics
code only calls it under `if latencies:`). -/
def pythonMin : List ℚ → ℚ
  | [] => 0
  | x :: xs => xs.foldl min x

/-- Python `max` over a non-empty list. -/
def pythonMax : List ℚ → ℚ
  | [] => 0
  | x :: xs => xs.foldl max x

/-- `statistics.mean`. -/
def pythonMean (l : List ℚ) : ℚ := l.sum / (l.length : ℚ)

/-- `statistics.median`: sort, take the middle element (odd length) or the
mean of the two middle elements (even length). -/
def pythonMedian (l : List ℚ) : ℚ :=
  let s := l.insertionSort (· ≤ ·)
  let n := s.length
  if n % 2 = 1 then s.getD (n / 2) 0
  else (s.getD (n / 2 - 1) 0 + s.getD (n / 2) 0) / 2

/-- `StressTestRunner._calculate_percentile(data, percentile)`. Python's
`int(index)` truncates toward zero; the indexes arising here are
non-negative, so it is the floor. -/
def calculate_percentile (data : List ℚ) (percentile : ℚ) : ℚ :=
  if data = [] then 0
  else
    let sorted_data := data.insertionSort (· ≤ ·)
    let index : ℚ := (percentile / 100) * ((sorted_data.length : ℚ) - 1)
    if index.den = 1 then
      sorted_data.getD index.num.toNat 0
    else
      let lower_index := ⌊index⌋.toNat
      let upper_index := lower_index + 1
      let weight := index - ⌊index⌋
      sorted_data.getD lower_index 0 * (1 - weight)
        + sorted_data.getD upper_index 0 * weight

/-- `StressTestRunner._calculate_metrics(results, config, start_time,
end_time, total_duration)`. -/
def calculate_metrics (results : List RequestResult) (config : StressTestConfig)
    (start_time end_time : String) (total_duration : ℚ) : StressTestResults :=
  let successful_results := results.filter (fun r => r.success)
  let failed_results := results.filter (fun r => !r.success)
  let total_requests := results.length
  let successful_requests := successful_results.length
  let failed_requests := failed_results.length
  let success_rate :=
    if 0 < total_requests then (successful_requests : ℚ) / (total_requests : ℚ)
    else 0
  let latencies := successful_results.map (fun r => r.latency)
  let min_latency := if latencies ≠ [] then pythonMin latencies else 0
  let max_latency := if latencies ≠ [] then pythonMax latencies else 0
  let avg_latency := if latencies ≠ [] then pythonMean latencies else 0
  let median_latency := if latencies ≠ [] then pythonMedian latencies else 0
  let p95_latency := if latencies ≠ [] then calculate_percentile latencies 95 else 0
  let total_tokens := (successful_results.map (fun r => r.token_count.getD 0)).sum
  let requests_per_second :=
    if 0 < total_duration then (total_requests : ℚ) / total_duration else 0
  let errors := failed_results.foldl
    (fun (acc : List (String × ℕ)) r =>
      let e := r.error.getD "Unknown error"
      match acc.lookup e with
      | none => acc ++ [(e, 1)]
      | some n => acc.map (fun p => if p.1 = e then (e, n + 1) else p)) []
  { test_name := config.test_name.getD ("stress_test_" ++ start_time),
    start_time := start_time, end_time := end_time,
    total_duration := total_duration,
    total_requests := total_requests,
    successful_requests := successful_requests,
    failed_requests := failed_requests,
    success_rate := success_rate,
    min_latency := min_latency, max_latency := max_latency,
    avg_latency := avg_latency, median_latency := median_latency,
    p95_latency := p95_latency,
    total_tokens := total_tokens,
    requests_per_second := requests_per_second,
    errors := errors,
    individual_results := results }

/-- The `prompts[:n]`-then-extend loop of `_generate_prompts` for a
non-empty `custom_prompts` list: cyclic repetition truncated to `n`. -/
def cyclicTake (base : List String) (n : ℕ) : List String :=
  (List.range n).map (fun i => base.getD (i % base.length) "")

/-- `StressTestRunner._generate_prompts(config)`. -/
def generate_prompts (choice : ℕ → ℕ)
    (sample : List String → ℕ → List String) (config : StressTestConfig) :
    Except String (List String) :=
  if config.custom_prompts ≠ [] then
    Except.ok (cyclicTake config.custom_prompts config.num_requests)
  else
    get_multiple_prompts choice sample config.prompt_type config.num_requests true

/-- The cost-reconciliation loop of `run_stress_test` (lines 131-152): for
each successful result, price `input_tokens = result.get('input_tokens', 50)`
and `output_tokens = result.get('token_count', 100) - input_tokens`, record
the entry in the tracker and accumulate the run's total cost. -/
def reconcile_costs (tracker : CostTracker) (model_name : String)
    (results : List RequestResult) (test_name : String) (today now : String) :
    CostTracker × ℚ :=
  results.foldl
    (fun (acc : CostTracker × ℚ) result =>
      if result.success then
        let input_tokens : ℤ := result.input_tokens.getD 50
        let output_tokens : ℤ := result.token_count.getD 100 - input_tokens
        let cost := calculate_request_cost model_name input_tokens output_tokens now
        (acc.1.record_test_cost cost (some test_name) today, acc.2 + cost.total_cost)
      else acc)
    (tracker, 0)

/-- `StressTestRunner.run_stress_test(config)` (file persistence elided:
saving results and cost history is best-effort IO). `order` is the
completion order of the worker pool in concurrent mode. -/
def run_stress_test (tracker : CostTracker) (model_name : String)
    (run_prompt : RunPrompt) (config : StressTestConfig) (choice : ℕ → ℕ)
    (sample : List String → ℕ → List String) (order : List ℕ)
    (today now start_time end_time : String) (total_duration : ℚ) :
    Except String StressTestResults := do
  let afford := can_afford_test tracker today model_name config.num_requests 50 100
  if afford.1 = false ∧ config.max_cost = none then
    Except.error ("Budget exceeded: " ++ afford.2)
  else do
    let tracker := tracker.start_test
    let prompts ← generate_prompts choice sample config
    let results ←
      if 1 < config.concurrent_requests then
        Except.ok (run_concurrent_requests model_name run_prompt prompts order)
      else
        run_sequential_requests run_prompt prompts
    let base := calculate_metrics results config start_time end_time total_duration
    let total_cost :=
      (reconcile_costs tracker model_name results base.test_name today now).2
    Except.ok
      { base with
        total_cost := total_cost,
        avg_cost_per_request :=
          if 0 < base.total_requests then total_cost / (base.total_requests : ℚ)
          else 0 }

/-! ## Auxiliary definitions for the verification -/

/-- Linear interpolation into a (sorted) list at a rational index `t`:
`s[⌊t⌋] * (1 - frac t) + s[⌊t⌋ + 1] * frac t`. Both branches of
`_calculate_percentile` compute this value (the integral branch has
`frac t = 0`, killing the second summand). -/
def interpSorted (s : List ℚ) (t : ℚ) : ℚ :=
  s.getD ⌊t⌋.toNat 0 * (1 - (t - (⌊t⌋ : ℚ)))
    + s.getD (⌊t⌋.toNat + 1) 0 * (t - (⌊t⌋ : ℚ))

/-- Ordering the engine's result records by `request_id` is total. -/
instance : IsTotal RequestResult (fun a b => a.request_id ≤ b.request_id) :=
  ⟨fun a b => Nat.le_total a.request_id b.request_id⟩

/-- Ordering the engine's result records by `request_id` is transitive. -/
instance : IsTrans RequestResult (fun a b => a.request_id ≤ b.request_id) :=
  ⟨fun _ _ _ => Nat.le_trans⟩

/-- A deterministic always-succeeding client outcome, used as a witness. -/
def alwaysOk : Outcome :=
  { response := "ok", latency := 1, success := true, model := "mock-gpt-4",
    token_count := some 60 }

/-- A client that raises (exception message `"kaboom"`) on the prompt
`"boom"` and succeeds on every other prompt. -/
def rpBoom : RunPrompt := fun p =>
  if p = "boom" then Except.error "kaboom" else Except.ok alwaysOk

/-- A client that always returns `alwaysOk` without raising. -/
def rpOk : RunPrompt := fun _ => Except.ok alwaysOk

/-- A successful outcome shaped like the mock/Ollama/HuggingFace clients'
result dictionaries: `input_tokens`/`output_tokens`/`total_tokens` present,
no `token_count` key. -/
def mockSuccessOutcome : Outcome :=
  { response := "ok", latency := 1, success := true, model := "gpt-4",
    input_tokens := some 10, output_tokens := some 200,
    total_tokens := some 210 }

/-- `mockSuccessOutcome` enriched by the engine as request 1. -/
def c3Result : RequestResult :=
  { toOutcome := mockSuccessOutcome, request_id := 1, prompt := "p" }

/-- A fresh development-tier tracker (daily limit `$5`, per-run limit `$1`). -/
def devTracker : CostTracker := CostTracker.init .DEVELOPMENT

/-- A deterministic stand-in for `random.sample`: take the first `k`
elements of the pool (one admissible draw). -/
def sampleTake : List String → ℕ → List String := fun l k => l.take k

/-- A deterministic stand-in for the `random.choice` index stream. -/
def choiceZero : ℕ → ℕ := fun _ => 0

/-- Two successful latency-bearing results used as concrete witnesses. -/
def witResults : List RequestResult :=
  [{ toOutcome := { alwaysOk with latency := 3 }, request_id := 1, prompt := "a" },
   { toOutcome := { alwaysOk with latency := 1 }, request_id := 2, prompt := "b" },
   { toOutcome := { success := false, error := some "x" }, request_id := 3, prompt := "c" }]

/-- An all-failing singleton result list used as a concrete witness. -/
def witFailResults : List RequestResult :=
  [{ toOutcome := { success := false, error := some "x" }, request_id := 1, prompt := "a" }]

/-! ## Helper lemmas: sorted lists, Python min/max -/

theorem getD_mono_of_sorted {s : List ℚ} (hs : s.Sorted (· ≤ ·)) {i j : ℕ}
    (hij : i ≤ j) (hj : j < s.length) : s.getD i 0 ≤ s.getD j 0 := by
  have hi : i < s.length := lt_of_le_of_lt hij hj
  rcases lt_or_eq_of_le hij with hlt | rfl
  · rw [List.getD_eq_get _ _ hi, List.getD_eq_get _ _ hj]
    exact hs.rel_get_of_lt (show (⟨i, hi⟩ : Fin s.length) < ⟨j, hj⟩ from hlt)
  · exact le_refl _

theorem foldl_min_le_start (xs : List ℚ) (x : ℚ) : xs.foldl min x ≤ x := by
  induction xs generalizing x with
  | nil => simp
  | cons y ys ih =>
    simpa using le_trans (ih (min x y)) (min_le_left x y)

theorem foldl_min_le_mem (xs : List ℚ) (x : ℚ) : ∀ y ∈ xs, xs.foldl min x ≤ y := by
  induction xs generalizing x with
  | nil => simp
  | cons z zs ih =>
    intro y hy
    rcases List.mem_cons.mp hy with rfl | hy
    · simpa using le_trans (foldl_min_le_start zs (min x y)) (min_le_right x y)
    · simpa using ih (min x z) y hy

theorem foldl_min_mem (xs : List ℚ) (x : ℚ) : xs.foldl min x ∈ x :: xs := by
  induction xs generalizing x with
  | nil => simp
  | cons y ys ih =>
    simp only [List.foldl_cons]
    rcases List.mem_cons.mp (ih (min x y)) with h | h
    · rw [h]
      rcases min_choice x y with h' | h' <;> rw [h']
      · exact List.mem_cons_self _ _
      · exact List.mem_cons_of_mem _ (List.mem_cons_self _ _)
    · exact List.mem_cons_of_mem _ (List.mem_cons_of_mem _ h)

theorem foldl_max_ge_start (xs : List ℚ) (x : ℚ) : x ≤ xs.foldl max x := by
  induction xs generalizing x with
  | nil => simp
  | cons y ys ih =>
    simpa using le_trans (le_max_left x y) (ih (max x y))

theorem foldl_max_ge_mem (xs : List ℚ) (x : ℚ) : ∀ y ∈ xs, y ≤ xs.foldl max x := by
  induction xs generalizing x with
  | nil => simp
  | cons z zs ih =>
    intro y hy
    rcases List.mem_cons.mp hy with rfl | hy
    · simpa using le_trans (le_max_right x y) (foldl_max_ge_start zs (max x y))
    · simpa using ih (max x z) y hy

theorem foldl_max_mem (xs : List ℚ) (x : ℚ) : xs.foldl max x ∈ x :: xs := by
  induction xs generalizing x with
  | nil => simp
  | cons y ys ih =>
    simp only [List.foldl_cons]
    rcases List.mem_cons.mp (ih (max x y)) with h | h
    · rw [h]
      rcases max_choice x y with h' | h' <;> rw [h']
      · exact List.mem_cons_self _ _
      · exact List.mem_cons_of_mem _ (List.mem_cons_self _ _)
    · exact List.mem_cons_of_mem _ (List.mem_cons_of_mem _ h)

theorem pythonMin_le {l : List ℚ} {x : ℚ} (hx : x ∈ l) : pythonMin l ≤ x := by
  cases l with
  | nil => cases hx
  | cons y ys =>
    rcases List.mem_cons.mp hx with rfl | h
    · exact foldl_min_le_start ys x
    · exact foldl_min_le_mem ys y x h

theorem pythonMin_mem {l : List ℚ} (h : l ≠ []) : pythonMin l ∈ l := by
  cases l with
  | nil => exact absurd rfl h
  | cons y ys => exact foldl_min_mem ys y

theorem le_pythonMax {l : List ℚ} {x : ℚ} (hx : x ∈ l) : x ≤ pythonMax l := by
  cases l with
  | nil => cases hx
  | cons y ys =>
    rcases List.mem_cons.mp hx with rfl | h
    · exact foldl_max_ge_start ys x
    · exact foldl_max_ge_mem ys y x h

theorem pythonMax_mem {l : List ℚ} (h : l ≠ []) : pythonMax l ∈ l := by
  cases l with
  | nil => exact absurd rfl h
  | cons y ys => exact foldl_max_mem ys y

theorem sortedHead_eq_pythonMin {l : List ℚ} (h : l ≠ []) :
    (l.insertionSort (· ≤ ·)).getD 0 0 = pythonMin l := by
  have hperm : List.Perm (l.insertionSort (· ≤ ·)) l := List.perm_insertionSort _ l
  have hs : (l.insertionSort (· ≤ ·)).Sorted (· ≤ ·) := List.sorted_insertionSort _ l
  have hlen : 0 < (l.insertionSort (· ≤ ·)).length := by
    rw [hperm.length_eq]
    exact List.length_pos.mpr h
  have hmem : (l.insertionSort (· ≤ ·)).getD 0 0 ∈ l := by
    rw [List.getD_eq_get _ _ hlen]
    exact hperm.subset (List.get_mem _ _ _)
  refine le_antisymm ?_ (pythonMin_le hmem)
  obtain ⟨⟨k, hk⟩, hget⟩ := List.mem_iff_get.mp (hperm.mem_iff.mpr (pythonMin_mem h))
  have hstep : (l.insertionSort (· ≤ ·)).getD 0 0 ≤ (l.insertionSort (· ≤ ·)).getD k 0 :=
    getD_mono_of_sorted hs (Nat.zero_le k) hk
  have hval : (l.insertionSort (· ≤ ·)).getD k 0 = pythonMin l := by
    rw [List.getD_eq_get _ _ hk]; exact hget
  exact hval ▸ hstep

theorem sortedLast_eq_pythonMax {l : List ℚ} (h : l ≠ []) :
    (l.insertionSort (· ≤ ·)).getD ((l.insertionSort (· ≤ ·)).length - 1) 0
      = pythonMax l := by
  have hperm : List.Perm (l.insertionSort (· ≤ ·)) l := List.perm_insertionSort _ l
  have hs : (l.insertionSort (· ≤ ·)).Sorted (· ≤ ·) := List.sorted_insertionSort _ l
  have hlen : 0 < (l.insertionSort (· ≤ ·)).length := by
    rw [hperm.length_eq]
    exact List.length_pos.mpr h
  have hlast : (l.insertionSort (· ≤ ·)).length - 1 < (l.insertionSort (· ≤ ·)).length :=
    Nat.sub_lt hlen Nat.one_pos
  have hmem : (l.insertionSort (· ≤ ·)).getD ((l.insertionSort (· ≤ ·)).length - 1) 0 ∈ l := by
    rw [List.getD_eq_get _ _ hlast]
    exact hperm.subset (List.get_mem _ _ _)
  refine le_antisymm (le_pythonMax hmem) ?_
  obtain ⟨⟨k, hk⟩, hget⟩ := List.mem_iff_get.mp (hperm.mem_iff.mpr (pythonMax_mem h))
  have hval : (l.insertionSort (· ≤ ·)).getD k 0 = pythonMax l := by
    rw [List.getD_eq_get _ _ hk]; exact hget
  have hstep : (l.insertionSort (· ≤ ·)).getD k 0
      ≤ (l.insertionSort (· ≤ ·)).getD ((l.insertionSort (· ≤ ·)).length - 1) 0 :=
    getD_mono_of_sorted hs (Nat.le_sub_one_of_lt hk) hlast
  exact hval ▸ hstep

/-! ## Helper lemmas: linear interpolation at a rational index -/

theorem interpSorted_of_den_eq_one {s : List ℚ} {t : ℚ} (ht : t.den = 1) :
    interpSorted s t = s.getD t.num.toNat 0 := by
  have hnum : (t.num : ℚ) = t := Rat.coe_int_num_of_den_eq_one ht
  have hfloor : ⌊t⌋ = t.num := by
    nth_rewrite 1 [← hnum]
    rw [Int.floor_intCast]
  unfold interpSorted
  rw [hfloor, hnum]
  simp

theorem calculate_percentile_eq_interp {data : List ℚ} (h : data ≠ []) (p : ℚ) :
    calculate_percentile data p
      = interpSorted (data.insertionSort (· ≤ ·))
          ((p / 100) * (((data.insertionSort (· ≤ ·)).length : ℚ) - 1)) := by
  unfold calculate_percentile
  rw [if_neg h]
  simp only []
  by_cases hden :
      ((p / 100) * (((data.insertionSort (· ≤ ·)).length : ℚ) - 1)).den = 1
  · rw [if_pos hden, interpSorted_of_den_eq_one hden]
  · rw [if_neg hden]
    rfl

theorem interpSorted_zero (s : List ℚ) : interpSorted s 0 = s.getD 0 0 := by
  unfold interpSorted
  simp

theorem interpSorted_last {s : List ℚ} (h : 1 ≤ s.length) :
    interpSorted s ((s.length : ℚ) - 1) = s.getD (s.length - 1) 0 := by
  have hcast : ((s.length : ℚ) - 1) = (((s.length : ℤ) - 1 : ℤ) : ℚ) := by
    push_cast
    ring
  unfold interpSorted
  rw [hcast, Int.floor_intCast]
  have htn : ((s.length : ℤ) - 1).toNat = s.length - 1 := by omega
  rw [htn]
  simp

theorem interpSorted_mono {s : List ℚ} (hs : s.Sorted (· ≤ ·)) {t₁ t₂ : ℚ}
    (h0 : 0 ≤ t₁) (h12 : t₁ ≤ t₂) (hn : t₂ ≤ (s.length : ℚ) - 1) :
    interpSorted s t₁ ≤ interpSorted s t₂ := by
  have hf1 : (0 : ℤ) ≤ ⌊t₁⌋ := Int.floor_nonneg.mpr h0
  have hf12 : ⌊t₁⌋ ≤ ⌊t₂⌋ := Int.floor_le_floor h12
  have hf2 : ⌊t₂⌋ ≤ (s.length : ℤ) - 1 := by
    have h' : ⌊t₂⌋ ≤ ⌊(((s.length : ℤ) - 1 : ℤ) : ℚ)⌋ := by
      apply Int.floor_le_floor
      push_cast
      linarith
    rwa [Int.floor_intCast] at h'
  have hw1a : (0 : ℚ) ≤ t₁ - (⌊t₁⌋ : ℚ) := by
    have := Int.floor_le t₁
    linarith
  have hw1b : t₁ - (⌊t₁⌋ : ℚ) < 1 := by
    have := Int.lt_floor_add_one t₁
    push_cast at this
    linarith
  have hw2a : (0 : ℚ) ≤ t₂ - (⌊t₂⌋ : ℚ) := by
    have := Int.floor_le t₂
    linarith
  have hw2b : t₂ - (⌊t₂⌋ : ℚ) < 1 := by
    have := Int.lt_floor_add_one t₂
    push_cast at this
    linarith
  rcases eq_or_lt_of_le hf12 with heq | hlt
  · by_cases htop : ⌊t₂⌋ = (s.length : ℤ) - 1
    · have ht2 : t₂ = (⌊t₂⌋ : ℚ) := by
        have hle : (⌊t₂⌋ : ℚ) ≤ t₂ := Int.floor_le t₂
        have hge : t₂ ≤ (⌊t₂⌋ : ℚ) := by
          rw [htop]
          push_cast
          linarith
        linarith
      have ht1 : t₁ = t₂ := by
        have h1 : (⌊t₁⌋ : ℚ) ≤ t₁ := Int.floor_le t₁
        have h2 : (⌊t₂⌋ : ℚ) ≤ t₁ := by rw [← heq]; exact h1
        linarith
      rw [ht1]
    · have hub : ⌊t₂⌋.toNat + 1 < s.length := by omega
      have hab : s.getD ⌊t₂⌋.toNat 0 ≤ s.getD (⌊t₂⌋.toNat + 1) 0 :=
        getD_mono_of_sorted hs (Nat.le_succ _) hub
      have hprod : (0 : ℚ) ≤
          (s.getD (⌊t₂⌋.toNat + 1) 0 - s.getD ⌊t₂⌋.toNat 0) * (t₂ - t₁) :=
        mul_nonneg (by linarith) (by linarith)
      unfold interpSorted
      rw [heq]
      nlinarith [hprod]
  · have hk1 : ⌊t₁⌋.toNat + 1 ≤ ⌊t₂⌋.toNat := by omega
    have hk2 : ⌊t₂⌋.toNat < s.length := by omega
    have hk1b : ⌊t₁⌋.toNat + 1 < s.length := lt_of_le_of_lt hk1 hk2
    have hab1 : s.getD ⌊t₁⌋.toNat 0 ≤ s.getD (⌊t₁⌋.toNat + 1) 0 :=
      getD_mono_of_sorted hs (Nat.le_succ _) hk1b
    have hb1a2 : s.getD (⌊t₁⌋.toNat + 1) 0 ≤ s.getD ⌊t₂⌋.toNat 0 :=
      getD_mono_of_sorted hs hk1 hk2
    have hstep1 : interpSorted s t₁ ≤ s.getD (⌊t₁⌋.toNat + 1) 0 := by
      unfold interpSorted
      nlinarith [mul_nonneg (sub_nonneg.mpr hab1)
        (by linarith : (0 : ℚ) ≤ 1 - (t₁ - (⌊t₁⌋ : ℚ)))]
    have hstep3 : s.getD ⌊t₂⌋.toNat 0 ≤ interpSorted s t₂ := by
      by_cases htop : ⌊t₂⌋ = (s.length : ℤ) - 1
      · have ht2 : t₂ = (⌊t₂⌋ : ℚ) := by
          have hle : (⌊t₂⌋ : ℚ) ≤ t₂ := Int.floor_le t₂
          have hge : t₂ ≤ (⌊t₂⌋ : ℚ) := by
            rw [htop]
            push_cast
            linarith
          linarith
        have hz : t₂ - (⌊t₂⌋ : ℚ) = 0 := by linarith
        unfold interpSorted
        rw [hz]
        simp
      · have hub : ⌊t₂⌋.toNat + 1 < s.length := by omega
        have hab2 : s.getD ⌊t₂⌋.toNat 0 ≤ s.getD (⌊t₂⌋.toNat + 1) 0 :=
          getD_mono_of_sorted hs (Nat.le_succ _) hub
        unfold interpSorted
        nlinarith [mul_nonneg (sub_nonneg.mpr hab2) hw2a]
    exact le_trans hstep1 (le_trans hb1a2 hstep3)

theorem pythonMedian_eq_interp {l : List ℚ} (h : l ≠ []) :
    pythonMedian l
      = interpSorted (l.insertionSort (· ≤ ·))
          ((((l.insertionSort (· ≤ ·)).length : ℚ) - 1) / 2) := by
  have hlen : 1 ≤ (l.insertionSort (· ≤ ·)).length := by
    rw [(List.perm_insertionSort _ l).length_eq]
    exact List.length_pos.mpr h
  unfold pythonMedian
  simp only []
  rcases Nat.even_or_odd (l.insertionSort (· ≤ ·)).length with he | ho
  · obtain ⟨m, hm⟩ := he
    have hm1 : 1 ≤ m := by omega
    have ht : (((l.insertionSort (· ≤ ·)).length : ℚ) - 1) / 2
        = (((m : ℤ) - 1 : ℤ) : ℚ) + 1 / 2 := by
      push_cast [hm]
      ring
    have hhalf : ⌊(1 : ℚ) / 2⌋ = 0 := by
      rw [Int.floor_eq_iff]
      norm_num
    have hfloor : ⌊(((l.insertionSort (· ≤ ·)).length : ℚ) - 1) / 2⌋
        = (m : ℤ) - 1 := by
      rw [ht, Int.floor_int_add, hhalf, add_zero]
    have hnotodd : ¬((l.insertionSort (· ≤ ·)).length % 2 = 1) := by omega
    rw [if_neg hnotodd]
    unfold interpSorted
    rw [hfloor, ht]
    have htn : ((m : ℤ) - 1).toNat = m - 1 := by omega
    have hdiv : (l.insertionSort (· ≤ ·)).length / 2 = m := by omega
    have hm1n : m - 1 + 1 = m := by omega
    rw [htn, hdiv, hm1n]
    push_cast
    ring
  · obtain ⟨m, hm⟩ := ho
    have ht : (((l.insertionSort (· ≤ ·)).length : ℚ) - 1) / 2 = ((m : ℤ) : ℚ) := by
      push_cast [hm]
      ring
    have hfloor : ⌊(((l.insertionSort (· ≤ ·)).length : ℚ) - 1) / 2⌋ = (m : ℤ) := by
      rw [ht, Int.floor_intCast]
    have hodd : (l.insertionSort (· ≤ ·)).length % 2 = 1 := by omega
    rw [if_pos hodd]
    unfold interpSorted
    rw [hfloor, ht]
    have htn : ((m : ℤ) : ℚ) - ((m : ℤ) : ℚ) = 0 := sub_self _
    rw [htn]
    have hdiv : (l.insertionSort (· ≤ ·)).length / 2 = m := by omega
    rw [hdiv]
    simp

theorem latency_stats_of_ne_nil {l : List ℚ} (h : l ≠ []) :
    pythonMin l ≤ pythonMedian l ∧ pythonMedian l ≤ calculate_percentile l 95 ∧
      calculate_percentile l 95 ≤ pythonMax l ∧
      pythonMin l ≤ pythonMean l ∧ pythonMean l ≤ pythonMax l := by
  have hs : (l.insertionSort (· ≤ ·)).Sorted (· ≤ ·) := List.sorted_insertionSort _ l
  have hlen : 1 ≤ (l.insertionSort (· ≤ ·)).length := by
    rw [(List.perm_insertionSort _ l).length_eq]
    exact List.length_pos.mpr h
  have hn1 : (1 : ℚ) ≤ ((l.insertionSort (· ≤ ·)).length : ℚ) := by exact_mod_cast hlen
  have hmed := pythonMedian_eq_interp h
  have hp95 := calculate_percentile_eq_interp h 95
  have h0med : (0 : ℚ) ≤ (((l.insertionSort (· ≤ ·)).length : ℚ) - 1) / 2 := by linarith
  have hmed95 : (((l.insertionSort (· ≤ ·)).length : ℚ) - 1) / 2
      ≤ (95 / 100) * (((l.insertionSort (· ≤ ·)).length : ℚ) - 1) := by nlinarith
  have h95top : (95 / 100) * (((l.insertionSort (· ≤ ·)).length : ℚ) - 1)
      ≤ ((l.insertionSort (· ≤ ·)).length : ℚ) - 1 := by nlinarith
  have hlpos : (0 : ℚ) < (l.length : ℚ) := by
    have : 0 < l.length := List.length_pos.mpr h
    exact_mod_cast this
  refine ⟨?_, ?_, ?_, ?_, ?_⟩
  · rw [← sortedHead_eq_pythonMin h, hmed, ← interpSorted_zero]
    exact interpSorted_mono hs (le_refl 0) h0med (by linarith)
  · rw [hmed, hp95]
    exact interpSorted_mono hs h0med hmed95 (by linarith)
  · rw [hp95, ← sortedLast_eq_pythonMax h, ← interpSorted_last hlen]
    exact interpSorted_mono hs (by linarith) h95top (by linarith)
  · have hsum : (l.length : ℚ) * pythonMin l ≤ l.sum := by
      have h' := List.card_nsmul_le_sum l (pythonMin l) (fun x hx => pythonMin_le hx)
      rwa [nsmul_eq_mul] at h'
    unfold pythonMean
    rw [le_div_iff hlpos]
    linarith [hsum]
  · have hsum : l.sum ≤ (l.length : ℚ) * pythonMax l := by
      have h' := List.sum_le_card_nsmul l (pythonMax l) (fun x hx => le_pythonMax hx)
      rwa [nsmul_eq_mul] at h'
    unfold pythonMean
    rw [div_le_iff hlpos]
    linarith [hsum]

/-! ## Helper lemmas: dispatch -/

theorem run_sequential_from_spec {rp : RunPrompt}
    (hrp : ∀ p, ∃ o, rp p = Except.ok o) :
    ∀ (prompts : List String) (i : ℕ), ∃ rs,
      run_sequential_from rp prompts i = Except.ok rs ∧
        rs.map (fun r => r.request_id) = List.range' (i + 1) prompts.length := by
  intro prompts
  induction prompts with
  | nil => exact fun i => ⟨[], rfl, rfl⟩
  | cons p ps ih =>
    intro i
    obtain ⟨o, ho⟩ := hrp p
    obtain ⟨rs, hrs, hmap⟩ := ih (i + 1)
    refine ⟨{ toOutcome := o, request_id := i + 1, prompt := p } :: rs, ?_, ?_⟩
    · simp only [run_sequential_from, ho, hrs]
      rfl
    · simp only [List.map_cons, List.length_cons, List.range'_succ, hmap]

theorem run_sequential_requests_spec {rp : RunPrompt}
    (hrp : ∀ p, ∃ o, rp p = Except.ok o) (prompts : List String) :
    ∃ rs, run_sequential_requests rp prompts = Except.ok rs ∧
      rs.map (fun r => r.request_id) = List.range' 1 prompts.length :=
  run_sequential_from_spec hrp prompts 0

theorem run_sequential_from_aborts {rp : RunPrompt} :
    ∀ (prompts : List String) (i : ℕ) (p e : String),
      p ∈ prompts → rp p = Except.error e →
      ∃ e', run_sequential_from rp prompts i = Except.error e' := by
  intro prompts
  induction prompts with
  | nil => intro i p e hp; cases hp
  | cons q qs ih =>
    intro i p e hp herr
    cases hq : rp q with
    | error e' =>
      refine ⟨e', ?_⟩
      simp only [run_sequential_from, hq]
      rfl
    | ok o =>
      rcases List.mem_cons.mp hp with rfl | hp'
      · rw [herr] at hq
        cases hq
      · obtain ⟨e', he'⟩ := ih (i + 1) p e hp' herr
        refine ⟨e', ?_⟩
        simp only [run_sequential_from, hq, he']
        rfl

theorem concurrentEntry_request_id (model : String) (rp : RunPrompt)
    (prompts : List String) (i : ℕ) :
    (concurrentEntry model rp prompts i).request_id = i + 1 := by
  cases h : rp (prompts.getD i "") <;>
    · simp only [concurrentEntry]
      rw [h]

theorem run_concurrent_requests_ids (model : String) (rp : RunPrompt)
    (prompts : List String) (order : List ℕ)
    (horder : List.Perm order (List.range prompts.length)) :
    (run_concurrent_requests model rp prompts order).map (fun r => r.request_id)
      = List.range' 1 prompts.length := by
  have hperm : List.Perm (run_concurrent_requests model rp prompts order)
      (order.map (concurrentEntry model rp prompts)) :=
    List.perm_insertionSort _ _
  have hsorted : (run_concurrent_requests model rp prompts order).Pairwise
      (fun a b => a.request_id ≤ b.request_id) :=
    List.sorted_insertionSort _ _
  have hids : (order.map (concurrentEntry model rp prompts)).map
      (fun r => r.request_id) = order.map (fun i => i + 1) := by
    rw [List.map_map]
    simp only [Function.comp_def, concurrentEntry_request_id]
  have h3 : (List.range prompts.length).map (fun i => i + 1)
      = List.range' 1 prompts.length := by
    rw [List.range'_eq_map_range]
    simp [Nat.add_comm]
  have hperm2 : List.Perm
      ((run_concurrent_requests model rp prompts order).map (fun r => r.request_id))
      (List.range' 1 prompts.length) := by
    have h1 := hperm.map (fun r => r.request_id)
    rw [hids] at h1
    have h2 := horder.map (fun i => i + 1)
    rw [h3] at h2
    exact h1.trans h2
  have hsorted1 : ((run_concurrent_requests model rp prompts order).map
      (fun r => r.request_id)).Pairwise (· ≤ ·) :=
    List.pairwise_map.mpr hsorted
  have hsorted2 : (List.range' 1 prompts.length).Pairwise ((· ≤ ·) : ℕ → ℕ → Prop) :=
    (List.pairwise_lt_range' 1 prompts.length).imp (fun h => le_of_lt h)
  exact List.eq_of_perm_of_sorted hperm2 hsorted1 hsorted2

theorem run_concurrent_requests_entries (model : String) (rp : RunPrompt)
    (prompts : List String) (order : List ℕ) :
    ∀ r ∈ run_concurrent_requests model rp prompts order,
      r.prompt = prompts.getD (r.request_id - 1) "" ∧
      (∀ o, rp r.prompt = Except.ok o → r.toOutcome = o) ∧
      (∀ e, rp r.prompt = Except.error e → r.success = false ∧
        r.token_count = some 0 ∧ r.error = some e ∧ r.latency = 0 ∧
        r.response = "" ∧ r.model = model) := by
  intro r hr
  have hr' : r ∈ order.map (concurrentEntry model rp prompts) :=
    (List.perm_insertionSort _ _).mem_iff.mp hr
  obtain ⟨i, hi, hent⟩ := List.mem_map.mp hr'
  have hid : r.request_id = i + 1 := by
    rw [← hent]
    exact concurrentEntry_request_id model rp prompts i
  have hprompt : r.prompt = prompts.getD i "" := by
    rw [← hent]
    cases hcall : rp (prompts.getD i "") <;>
      · simp only [concurrentEntry]
        rw [hcall]
  refine ⟨by rw [hprompt, hid]; simp, ?_, ?_⟩
  · intro o ho
    rw [hprompt] at ho
    rw [← hent]
    simp only [concurrentEntry]
    rw [ho]
  · intro e he
    rw [hprompt] at he
    rw [← hent]
    simp only [concurrentEntry]
    rw [he]
    exact ⟨rfl, rfl, rfl, rfl, rfl, rfl⟩

/-! ## Helper lemmas: the run pipeline -/

theorem generate_prompts_ok (choice : ℕ → ℕ)
    (sample : List String → ℕ → List String) (config : StressTestConfig)
    (hn : 1 ≤ config.num_requests) :
    ∃ ps, generate_prompts choice sample config = Except.ok ps := by
  unfold generate_prompts
  by_cases hc : config.custom_prompts ≠ []
  · rw [if_pos hc]
    exact ⟨_, rfl⟩
  · rw [if_neg hc]
    unfold get_multiple_prompts
    have h0 : ¬(config.num_requests = 0) := by omega
    rw [if_neg h0]
    have h1 : ¬((true = false) ∧
        (get_prompts_by_type config.prompt_type).length < config.num_requests) := by
      rintro ⟨h, -⟩
      cases h
    rw [if_neg h1, if_pos rfl]
    exact ⟨_, rfl⟩

theorem except_ok_bind {ε α β : Type} (a : α) (f : α → Except ε β) :
    (Except.ok a >>= f) = f a := rfl

theorem run_stress_test_ok_of_gate_pass (tracker : CostTracker)
    (model_name : String) (rp : RunPrompt) (config : StressTestConfig)
    (choice : ℕ → ℕ) (sample : List String → ℕ → List String) (order : List ℕ)
    (today now start_time end_time : String) (total_duration : ℚ)
    (hn : 1 ≤ config.num_requests) (hrp : ∀ p, ∃ o, rp p = Except.ok o)
    (hgate : ¬((can_afford_test tracker today model_name
        config.num_requests 50 100).1 = false ∧ config.max_cost = none)) :
    ∀ e, run_stress_test tracker model_name rp config choice sample order
        today now start_time end_time total_duration ≠ Except.error e := by
  intro e
  obtain ⟨ps, hps⟩ := generate_prompts_ok choice sample config hn
  by_cases hcc : 1 < config.concurrent_requests
  · simp only [run_stress_test, if_neg hgate, hps, except_ok_bind, if_pos hcc]
    exact fun h => Except.noConfusion h
  · obtain ⟨rs, hrs, -⟩ := run_sequential_requests_spec hrp ps
    simp only [run_stress_test, if_neg hgate, hps, except_ok_bind, if_neg hcc, hrs]
    exact fun h => Except.noConfusion h

theorem run_stress_test_gate_error (tracker : CostTracker)
    (model_name : String) (rp : RunPrompt) (config : StressTestConfig)
    (choice : ℕ → ℕ) (sample : List String → ℕ → List String) (order : List ℕ)
    (today now start_time end_time : String) (total_duration : ℚ)
    (hgate : (can_afford_test tracker today model_name
        config.num_requests 50 100).1 = false ∧ config.max_cost = none) :
    run_stress_test tracker model_name rp config choice sample order
        today now start_time end_time total_duration
      = Except.error ("Budget exceeded: "
          ++ (can_afford_test tracker today model_name
                config.num_requests 50 100).2) := by
  simp only [run_stress_test, if_pos hgate]

/-! ## Helper lemmas: concrete budget-gate instance -/

theorem reason_mentions_test_limit (e l : String) :
    ∃ pre post, ("Test cost $" ++ e ++ " exceeds test limit $" ++ l)
      = pre ++ "test limit" ++ post := by
  refine ⟨"Test cost $" ++ e ++ " exceeds ", " $" ++ l, ?_⟩
  simp only [String.append_assoc]
  congr 2

theorem lookup_gpt4 : MODEL_PRICING.lookup "gpt-4"
    = some { input_cost_per_1k := 0.03, output_cost_per_1k := 0.06 } := rfl

theorem estimate_gpt4_200 : estimate_test_cost "gpt-4" 200 50 100 = 3 / 2 := by
  norm_num [estimate_test_cost, calculate_request_cost, lookupModelPricing,
    lookup_gpt4]

theorem can_afford_dev_gpt4_200 :
    can_afford_test devTracker "2024-01-01" "gpt-4" 200 50 100
      = (false, "Test cost $" ++ toString (estimate_test_cost "gpt-4" 200 50 100)
          ++ " exceeds test limit $"
          ++ toString devTracker.budget_config.test_limit) := by
  have hlt : devTracker.budget_config.test_limit
      < estimate_test_cost "gpt-4" 200 50 100 := by
    rw [estimate_gpt4_200]
    norm_num [devTracker, CostTracker.init, BUDGET_TIERS]
  simp only [can_afford_test, if_pos hlt]

/-! ## Claim theorems -/

/-- C1: for every client whose `run_prompt` returns outcome records, both
dispatch modes produce a results list whose `request_id` projection is
exactly `[1, …, n]` for `n = prompts.length` — so the list has length `n`,
its ids are `1..n` with no duplicates or gaps, and it is sorted ascending —
regardless of the worker-pool completion order (`order`, an arbitrary
permutation of the request indexes), and `_calculate_metrics` places exactly
this list in `individual_results`. -/
theorem dispatch_request_ids (model : String) (rp : RunPrompt)
    (prompts : List String) (order : List ℕ) (config : StressTestConfig)
    (st et : String) (dur : ℚ)
    (hrp : ∀ p, ∃ o, rp p = Except.ok o)
    (horder : List.Perm order (List.range prompts.length)) :
    (∃ rs, run_sequential_requests rp prompts = Except.ok rs ∧
        rs.map (fun r => r.request_id) = List.range' 1 prompts.length ∧
        (calculate_metrics rs config st et dur).individual_results = rs)
    ∧ ((run_concurrent_requests model rp prompts order).map (fun r => r.request_id)
        = List.range' 1 prompts.length)
    ∧ (calculate_metrics (run_concurrent_requests model rp prompts order)
          config st et dur).individual_results
        = run_concurrent_requests model rp prompts order := by
  obtain ⟨rs, h1, h2⟩ := run_sequential_requests_spec hrp prompts
  exact ⟨⟨rs, h1, h2, rfl⟩,
    run_concurrent_requests_ids model rp prompts order horder, rfl⟩

/-- Witness for C1 at a concrete client, prompt list and completion order. -/
theorem dispatch_request_ids_witness :
    (∀ p, ∃ o, rpOk p = Except.ok o)
    ∧ List.Perm [2, 0, 1] (List.range 3)
    ∧ (∃ rs, run_sequential_requests rpOk ["a", "b", "c"] = Except.ok rs ∧
        rs.map (fun r => r.request_id) = List.range' 1 3)
    ∧ ((run_concurrent_requests "m" rpOk ["a", "b", "c"] [2, 0, 1]).map
        (fun r => r.request_id) = List.range' 1 3) := by
  have h := dispatch_request_ids "m" rpOk ["a", "b", "c"] [2, 0, 1] {} "s" "e" 0
    (fun p => ⟨alwaysOk, rfl⟩) (by decide)
  obtain ⟨⟨rs, h1, h2, -⟩, h3, -⟩ := h
  exact ⟨fun p => ⟨alwaysOk, rfl⟩, by decide, ⟨rs, h1, h2⟩, h3⟩

/-- C2 counterexample: the claim says an exception raised by a client call
never aborts the run in either dispatch mode; but in sequential mode
(`concurrency == 1`) the loop has no exception handler, so a client that
raises on the prompt `"boom"` aborts the sequential dispatch instead of
yielding a synthetic failed outcome. -/
theorem sequential_exception_aborts_run :
    run_sequential_requests rpBoom ["a", "boom"] = Except.error "kaboom"
    ∧ ∀ rs, run_sequential_requests rpBoom ["a", "boom"] ≠ Except.ok rs := by
  have h : run_sequential_requests rpBoom ["a", "boom"]
      = Except.error "kaboom" := rfl
  refine ⟨h, fun rs hc => ?_⟩
  rw [h] at hc
  cases hc

/-- C2 amended: only in concurrent mode (`concurrency > 1`) is an exception
raised by a client call converted into a synthetic failed outcome
(`success = false`, `token_count = 0`, the exception's message as the error,
`request_id` and `prompt` preserved) while the run still covers all `n`
requests; in sequential mode an exception from the client propagates and
aborts the dispatch. -/
theorem dispatch_error_handling (model : String) (rp : RunPrompt)
    (prompts : List String) (order : List ℕ)
    (horder : List.Perm order (List.range prompts.length)) :
    ((run_concurrent_requests model rp prompts order).map (fun r => r.request_id)
        = List.range' 1 prompts.length)
    ∧ (∀ r ∈ run_concurrent_requests model rp prompts order,
        r.prompt = prompts.getD (r.request_id - 1) "" ∧
        (∀ o, rp r.prompt = Except.ok o → r.toOutcome = o) ∧
        (∀ e, rp r.prompt = Except.error e → r.success = false ∧
          r.token_count = some 0 ∧ r.error = some e ∧ r.latency = 0 ∧
          r.response = "" ∧ r.model = model))
    ∧ (∀ p e, p ∈ prompts → rp p = Except.error e →
        ∃ e', run_sequential_requests rp prompts = Except.error e') :=
  ⟨run_concurrent_requests_ids model rp prompts order horder,
   run_concurrent_requests_entries model rp prompts order,
   fun p e hp he => run_sequential_from_aborts prompts 0 p e hp he⟩

/-- Witness for the amended C2 at a concrete raising client. -/
theorem dispatch_error_handling_witness :
    List.Perm [1, 0] (List.range 2)
    ∧ ((run_concurrent_requests "m" rpBoom ["a", "boom"] [1, 0]).map
        (fun r => r.request_id) = List.range' 1 2)
    ∧ (∃ e', run_sequential_requests rpBoom ["a", "boom"] = Except.error e') := by
  have h := dispatch_error_handling "m" rpBoom ["a", "boom"] [1, 0] (by decide)
  exact ⟨by decide, h.1, h.2.2 "boom" "kaboom" (by simp) rfl⟩

/-- C3: cost reconciliation prices a successful outcome from
`result.get('input_tokens', 50)` and `result.get('token_count', 100) -
input_tokens`; for an outcome carrying its real token counts in the
`input_tokens`/`output_tokens`/`total_tokens` fields (as the mock, Ollama
and HuggingFace clients produce, with no `token_count` key), the engine
prices 10 input and 100 - 10 = 90 output tokens — the 100-token default —
instead of the outcome's actual 200 output tokens, so the recorded cost
($0.0057 for gpt-4) differs from the cost of the real token counts
($0.0123). -/
theorem reconcile_uses_token_count_default :
    ((reconcile_costs devTracker "gpt-4" [c3Result] "t" "today" "now").2
        = (calculate_request_cost "gpt-4" 10 90 "now").total_cost)
    ∧ c3Result.success = true
    ∧ c3Result.input_tokens = some 10
    ∧ c3Result.output_tokens = some 200
    ∧ c3Result.token_count = none
    ∧ (calculate_request_cost "gpt-4" 10 90 "now").total_cost = 57 / 10000
    ∧ (calculate_request_cost "gpt-4" 10 200 "now").total_cost = 123 / 10000
    ∧ (reconcile_costs devTracker "gpt-4" [c3Result] "t" "today" "now").2
        ≠ (calculate_request_cost "gpt-4" 10 200 "now").total_cost := by
  have hval90 : (calculate_request_cost "gpt-4" 10 90 "now").total_cost
      = 57 / 10000 := by
    norm_num [calculate_request_cost, lookupModelPricing, lookup_gpt4]
  have hval200 : (calculate_request_cost "gpt-4" 10 200 "now").total_cost
      = 123 / 10000 := by
    norm_num [calculate_request_cost, lookupModelPricing, lookup_gpt4]
  have hrec : (reconcile_costs devTracker "gpt-4" [c3Result] "t" "today" "now").2
      = (calculate_request_cost "gpt-4" 10 90 "now").total_cost := by
    show (0 : ℚ) + (calculate_request_cost "gpt-4" ((10 : ℤ))
        ((100 : ℤ) - 10) "now").total_cost = _
    norm_num
  refine ⟨hrec, rfl, rfl, rfl, rfl, hval90, hval200, ?_⟩
  rw [hrec, hval90, hval200]
  norm_num

/-- C5: the percentile function interpolates: p95 of `[1,2,3,4,5]` is `4.8`
(index `0.95 * 4 = 3.8`, interpolating between the elements at 0-based
indexes 3 and 4 with weight `0.8`), p95 of `[10]` is `10` (integral index
`0`), and on empty input every percentile is `0` rather than an error. -/
theorem percentile_examples :
    calculate_percentile [1, 2, 3, 4, 5] 95 = 4.8
    ∧ calculate_percentile [10] 95 = 10
    ∧ ∀ p : ℚ, calculate_percentile [] p = 0 := by
  refine ⟨?_, ?_, fun p => rfl⟩
  · rw [calculate_percentile_eq_interp (by simp)]
    norm_num [interpSorted, List.insertionSort, List.orderedInsert,
      List.getD_cons_succ, List.getD_cons_zero, show Int.toNat 3 = 3 from rfl]
  · norm_num [calculate_percentile, List.insertionSort, List.orderedInsert,
      List.getD_cons_succ, List.getD_cons_zero, Int.toNat_ofNat]

/-- C4: `run_stress_test` fails (with a `Budget exceeded` error raised
before prompt generation and dispatch) iff the affordability check rejects
the run and no `max_cost` override is set; otherwise the run proceeds to a
report. Concretely, with the development tier (daily limit $5, per-run limit
$1) and the pre-flight estimate $1.50 (gpt-4, 200 requests at 50 input /
100 output tokens), `can_afford_test` returns `false` with a reason
mentioning the per-run (test) limit. -/
theorem budget_gate_spec (tracker : CostTracker) (model_name : String)
    (rp : RunPrompt) (config : StressTestConfig) (choice : ℕ → ℕ)
    (sample : List String → ℕ → List String) (order : List ℕ)
    (today now st et : String) (dur : ℚ)
    (hn : 1 ≤ config.num_requests) (hrp : ∀ p, ∃ o, rp p = Except.ok o) :
    ((∃ e, run_stress_test tracker model_name rp config choice sample order
          today now st et dur = Except.error e)
      ↔ ((can_afford_test tracker today model_name config.num_requests 50 100).1
            = false ∧ config.max_cost = none))
    ∧ (can_afford_test devTracker "2024-01-01" "gpt-4" 200 50 100).1 = false
    ∧ (∃ pre post, (can_afford_test devTracker "2024-01-01" "gpt-4" 200 50 100).2
        = pre ++ "test limit" ++ post)
    ∧ estimate_test_cost "gpt-4" 200 50 100 = 3 / 2 := by
  refine ⟨?_, ?_, ?_, estimate_gpt4_200⟩
  · by_cases hgate : (can_afford_test tracker today model_name
        config.num_requests 50 100).1 = false ∧ config.max_cost = none
    · exact ⟨fun _ => hgate, fun _ =>
        ⟨_, run_stress_test_gate_error tracker model_name rp config choice
          sample order today now st et dur hgate⟩⟩
    · constructor
      · rintro ⟨e, he⟩
        exact absurd he (run_stress_test_ok_of_gate_pass tracker model_name rp
          config choice sample order today now st et dur hn hrp hgate e)
      · intro h
        exact absurd h hgate
  · rw [can_afford_dev_gpt4_200]
  · rw [can_afford_dev_gpt4_200]
    exact reason_mentions_test_limit _ _

/-- Witness for C4 at a concrete affordable run (free mock model). -/
theorem budget_gate_spec_witness :
    (1 ≤ ({} : StressTestConfig).num_requests)
    ∧ ((∃ e, run_stress_test devTracker "mock-gpt-4" rpOk {} choiceZero
          sampleTake [] "2024-01-01" "now" "s" "e" 0 = Except.error e)
        ↔ ((can_afford_test devTracker "2024-01-01" "mock-gpt-4"
              ({} : StressTestConfig).num_requests 50 100).1 = false
            ∧ ({} : StressTestConfig).max_cost = none)) := by
  have h := budget_gate_spec devTracker "mock-gpt-4" rpOk {} choiceZero
    sampleTake [] "2024-01-01" "now" "s" "e" 0 (by norm_num)
    (fun p => ⟨alwaysOk, rfl⟩)
  exact ⟨by norm_num, h.1⟩

/-- C6: pricing a request is total and pure: the returned entry's total cost
is `(inputTokens/1000) * inputRate + (outputTokens/1000) * outputRate` with
the rates looked up in the fixed pricing table, an unknown model name falls
back to the table's own `gpt-3.5-turbo` entry, and the total cost does not
depend on anything but the model name and token counts (in particular not on
the timestamp), so pricing twice yields the identical total. -/
theorem priceRequest_formula (model : String) (i o : ℤ) (now : String)
    (hi : 0 ≤ i) (ho : 0 ≤ o) :
    ((calculate_request_cost model i o now).total_cost
        = ((i : ℚ) / 1000) * (lookupModelPricing model).input_cost_per_1k
          + ((o : ℚ) / 1000) * (lookupModelPricing model).output_cost_per_1k)
    ∧ (MODEL_PRICING.lookup model = none →
        lookupModelPricing model = gpt_3_5_turbo_pricing)
    ∧ (∀ now', (calculate_request_cost model i o now).total_cost
        = (calculate_request_cost model i o now').total_cost)
    ∧ MODEL_PRICING.lookup "gpt-3.5-turbo" = some gpt_3_5_turbo_pricing := by
  refine ⟨rfl, ?_, fun _ => rfl, rfl⟩
  intro h
  unfold lookupModelPricing
  rw [h]
  rfl

/-- Witness for C6 at an unknown model name and concrete token counts. -/
theorem priceRequest_formula_witness :
    ((0 : ℤ) ≤ 50) ∧ ((0 : ℤ) ≤ 100)
    ∧ ((calculate_request_cost "unknown-model" 50 100 "now").total_cost
        = ((50 : ℚ) / 1000) * gpt_3_5_turbo_pricing.input_cost_per_1k
          + ((100 : ℚ) / 1000) * gpt_3_5_turbo_pricing.output_cost_per_1k) := by
  have h := priceRequest_formula "unknown-model" 50 100 "now"
    (by norm_num) (by norm_num)
  refine ⟨by norm_num, by norm_num, ?_⟩
  rw [h.1, h.2.1 rfl]
  norm_num

/-- C7: on a non-empty results list, the report's `success_rate` equals
`successful_requests / total_requests` exactly, and every outcome is counted
exactly once: `successful_requests + failed_requests = total_requests`. -/
theorem success_rate_exact (results : List RequestResult)
    (config : StressTestConfig) (st et : String) (dur : ℚ)
    (h : results ≠ []) :
    ((calculate_metrics results config st et dur).success_rate
        = ((calculate_metrics results config st et dur).successful_requests : ℚ)
          / ((calculate_metrics results config st et dur).total_requests : ℚ))
    ∧ (calculate_metrics results config st et dur).successful_requests
        + (calculate_metrics results config st et dur).failed_requests
        = (calculate_metrics results config st et dur).total_requests := by
  have hpos : 0 < results.length := List.length_pos.mpr h
  constructor
  · have e1 : (calculate_metrics results config st et dur).success_rate
        = if 0 < results.length then
            (((results.filter (fun r => r.success)).length : ℚ)
              / (results.length : ℚ))
          else 0 := rfl
    have e2 : (calculate_metrics results config st et dur).successful_requests
        = (results.filter (fun r => r.success)).length := rfl
    have e3 : (calculate_metrics results config st et dur).total_requests
        = results.length := rfl
    rw [e1, e2, e3, if_pos hpos]
  · exact (List.length_eq_length_filter_add (l := results)
      (fun r => r.success)).symm

/-- Witness for C7 at a concrete three-outcome results list. -/
theorem success_rate_exact_witness :
    witResults ≠ []
    ∧ (calculate_metrics witResults {} "s" "e" 0).successful_requests
        + (calculate_metrics witResults {} "s" "e" 0).failed_requests
        = (calculate_metrics witResults {} "s" "e" 0).total_requests := by
  have h := success_rate_exact witResults {} "s" "e" 0 (by simp [witResults])
  exact ⟨by simp [witResults], h.2⟩

/-- C8: whenever at least one outcome succeeded, the report's latency
statistics (computed over successful outcomes only) satisfy
`min ≤ median ≤ p95 ≤ max` and `min ≤ mean ≤ max`; with zero successful
outcomes all five statistics are `0`. -/
theorem latency_stats_ordered (results : List RequestResult)
    (config : StressTestConfig) (st et : String) (dur : ℚ) :
    (0 < (results.filter (fun r => r.success)).length →
      (calculate_metrics results config st et dur).min_latency
          ≤ (calculate_metrics results config st et dur).median_latency
      ∧ (calculate_metrics results config st et dur).median_latency
          ≤ (calculate_metrics results config st et dur).p95_latency
      ∧ (calculate_metrics results config st et dur).p95_latency
          ≤ (calculate_metrics results config st et dur).max_latency
      ∧ (calculate_metrics results config st et dur).min_latency
          ≤ (calculate_metrics results config st et dur).avg_latency
      ∧ (calculate_metrics results config st et dur).avg_latency
          ≤ (calculate_metrics results config st et dur).max_latency)
    ∧ ((results.filter (fun r => r.success)).length = 0 →
      (calculate_metrics results config st et dur).min_latency = 0
      ∧ (calculate_metrics results config st et dur).max_latency = 0
      ∧ (calculate_metrics results config st et dur).avg_latency = 0
      ∧ (calculate_metrics results config st et dur).median_latency = 0
      ∧ (calculate_metrics results config st et dur).p95_latency = 0) := by
  have emin : (calculate_metrics results config st et dur).min_latency
      = if ((results.filter (fun r => r.success)).map (fun r => r.latency)) ≠ []
        then pythonMin ((results.filter (fun r => r.success)).map (fun r => r.latency))
        else 0 := rfl
  have emax : (calculate_metrics results config st et dur).max_latency
      = if ((results.filter (fun r => r.success)).map (fun r => r.latency)) ≠ []
        then pythonMax ((results.filter (fun r => r.success)).map (fun r => r.latency))
        else 0 := rfl
  have eavg : (calculate_metrics results config st et dur).avg_latency
      = if ((results.filter (fun r => r.success)).map (fun r => r.latency)) ≠ []
        then pythonMean ((results.filter (fun r => r.success)).map (fun r => r.latency))
        else 0 := rfl
  have emed : (calculate_metrics results config st et dur).median_latency
      = if ((results.filter (fun r => r.success)).map (fun r => r.latency)) ≠ []
        then pythonMedian ((results.filter (fun r => r.success)).map (fun r => r.latency))
        else 0 := rfl
  have ep95 : (calculate_metrics results config st et dur).p95_latency
      = if ((results.filter (fun r => r.success)).map (fun r => r.latency)) ≠ []
        then calculate_percentile
          ((results.filter (fun r => r.success)).map (fun r => r.latency)) 95
        else 0 := rfl
  constructor
  · intro hpos
    have hne : ((results.filter (fun r => r.success)).map (fun r => r.latency)) ≠ [] := by
      apply List.ne_nil_of_length_pos
      rw [List.length_map]
      exact hpos
    rw [emin, emax, eavg, emed, ep95, if_pos hne, if_pos hne, if_pos hne,
      if_pos hne, if_pos hne]
    obtain ⟨h1, h2, h3, h4, h5⟩ := latency_stats_of_ne_nil hne
    exact ⟨h1, h2, h3, h4, h5⟩
  · intro hzero
    have hnil : ((results.filter (fun r => r.success)).map (fun r => r.latency)) = [] := by
      apply List.length_eq_zero.mp
      rw [List.length_map]
      exact hzero
    have hnn : ¬(((results.filter (fun r => r.success)).map
        (fun r => r.latency)) ≠ []) := fun hc => hc hnil
    rw [emin, emax, eavg, emed, ep95, if_neg hnn, if_neg hnn, if_neg hnn,
      if_neg hnn, if_neg hnn]
    exact ⟨rfl, rfl, rfl, rfl, rfl⟩

/-- Witness for C8: a results list with two successes (latencies 3 and 1)
and an all-failing singleton list. -/
theorem latency_stats_ordered_witness :
    (0 < (witResults.filter (fun r => r.success)).length
      ∧ (calculate_metrics witResults {} "s" "e" 0).min_latency
          ≤ (calculate_metrics witResults {} "s" "e" 0).median_latency)
    ∧ ((witFailResults.filter (fun r => r.success)).length = 0
      ∧ (calculate_metrics witFailResults {} "s" "e" 0).p95_latency = 0) := by
  have h1 := (latency_stats_ordered witResults {} "s" "e" 0).1 (by decide)
  have h2 := (latency_stats_ordered witFailResults {} "s" "e" 0).2 (by decide)
  exact ⟨⟨by decide, h1.1⟩, ⟨by decide, h2.2.2.2.2⟩⟩

/-- C9: with `allow_duplicates = false` and `count ≥ 1`, prompt generation
fails exactly when `count` exceeds the number of available templates for the
category (raising the insufficient-unique-prompts error), and otherwise
returns exactly `count` pairwise-distinct prompts — assuming only the
documented contract of `random.sample` (a length-`k` duplicate-free
selection from the pool). -/
theorem generate_unique_prompts_spec (choice : ℕ → ℕ)
    (sample : List String → ℕ → List String) (pt : PromptType) (count : ℕ)
    (h1 : 1 ≤ count)
    (hs : ∀ (l : List String) (k : ℕ), k ≤ l.length → l.Nodup →
      (sample l k).length = k ∧ (sample l k).Nodup) :
    ((∃ e, get_multiple_prompts choice sample pt count false = Except.error e)
        ↔ (get_prompts_by_type pt).length < count)
    ∧ ((get_prompts_by_type pt).length < count →
        get_multiple_prompts choice sample pt count false
          = Except.error ("Cannot generate " ++ toString count
              ++ " unique prompts of the requested type. Only "
              ++ toString (get_prompts_by_type pt).length ++ " available."))
    ∧ (count ≤ (get_prompts_by_type pt).length →
        ∃ ps, get_multiple_prompts choice sample pt count false = Except.ok ps
          ∧ ps.length = count ∧ ps.Nodup) := by
  have h0 : ¬(count = 0) := by omega
  have hnodup : (get_prompts_by_type pt).Nodup := by
    cases pt <;> decide
  by_cases hlt : (get_prompts_by_type pt).length < count
  · have herr : get_multiple_prompts choice sample pt count false
        = Except.error ("Cannot generate " ++ toString count
            ++ " unique prompts of the requested type. Only "
            ++ toString (get_prompts_by_type pt).length ++ " available.") := by
      simp only [get_multiple_prompts, if_neg h0, eq_self_iff_true, true_and,
        if_pos hlt]
    refine ⟨⟨fun _ => hlt, fun _ => ⟨_, herr⟩⟩, fun _ => herr, fun hle => ?_⟩
    omega
  · have hok : get_multiple_prompts choice sample pt count false
        = Except.ok (sample (get_prompts_by_type pt) count) := by
      have hc3 : ¬(false = true) := by simp
      simp only [get_multiple_prompts, if_neg h0, eq_self_iff_true, true_and,
        if_neg hlt, if_neg hc3]
    refine ⟨⟨?_, fun h => absurd h hlt⟩, fun h => absurd h hlt, fun hle => ?_⟩
    · rintro ⟨e, he⟩
      rw [hok] at he
      cases he
    · obtain ⟨hlen, hnd⟩ := hs (get_prompts_by_type pt) count (by omega) hnodup
      exact ⟨_, hok, hlen, hnd⟩

/-- Witness for C9: taking the first `k` pool elements is one admissible
draw of `random.sample`; 3 unique short-QA prompts are generated. -/
theorem generate_unique_prompts_spec_witness :
    (1 ≤ 3)
    ∧ (∃ ps, get_multiple_prompts choiceZero sampleTake .SHORT_QA 3 false
        = Except.ok ps ∧ ps.length = 3 ∧ ps.Nodup) := by
  have hcontract : ∀ (l : List String) (k : ℕ), k ≤ l.length → l.Nodup →
      (sampleTake l k).length = k ∧ (sampleTake l k).Nodup := by
    intro l k hk hnd
    constructor
    · simp only [sampleTake, List.length_take]
      omega
    · exact hnd.sublist (List.take_sublist _ _)
  have h := generate_unique_prompts_spec choiceZero sampleTake .SHORT_QA 3
    (by omega) hcontract
  exact ⟨by omega, h.2.2 (by decide)⟩

/-- C10 (implicit): in every budget status the cost tracker reports inside a
cost summary — in any tracker state, including spend beyond the limits —
the remaining amounts are clamped at 0 (never negative) and the percentages
are clamped at 100 (never above). -/
theorem budget_status_clamped (t : CostTracker) (inWindow : String → Bool)
    (today : String) (days : ℕ) :
    0 ≤ (t.get_cost_summary inWindow today days).budget_status.daily_remaining
    ∧ 0 ≤ (t.get_cost_summary inWindow today days).budget_status.test_remaining
    ∧ (t.get_cost_summary inWindow today days).budget_status.daily_percentage ≤ 100
    ∧ (t.get_cost_summary inWindow today days).budget_status.test_percentage ≤ 100 := by
  have hbs : (t.get_cost_summary inWindow today days).budget_status
      = t.get_budget_status today := by
    simp only [CostTracker.get_cost_summary]
    split <;> rfl
  rw [hbs]
  exact ⟨le_max_left _ _, le_max_left _ _, min_le_left _ _, min_le_left _ _⟩

end LlmInfer
